import Mathlib

/-!
Verification of the MONAI Cloud API client notebooks.

This file gives a shallow embedding of the client-side logic found in the
repository's notebooks (the `wait_for_job` polling helper, the login cell,
the download gate, the cleanup cells and the base-experiment selection cell)
and proves the specification claims about them.

The network is modelled by its observable data: a poll sequence
`polls : Nat → String` gives the wire `status` field returned by the n-th
GET on the job endpoint (the notebooks assert HTTP 200 on each poll; polls
here are the bodies of those successful responses), and HTTP status codes
of other requests are explicit inputs.  Wall-clock time is modelled by the
5-second sleeps of the polling loop: after k sleeps, `time.time() - start_time`
is 5 * k.
-/

namespace MonaiCloud

/-- Embedding of Python's `str.title()` for the strings that can occur as
job statuses: an alphabetic character is uppercased when it follows a
non-alphabetic character (or starts the string) and lowercased otherwise;
non-alphabetic characters are kept. The boolean argument records whether
the previous character was alphabetic. -/
def titleGo : List Char → Bool → List Char
  | [], _ => []
  | c :: rest, prevAlpha =>
    if c.isAlpha then
      (if prevAlpha then c.toLower else c.toUpper) :: titleGo rest true
    else
      c :: titleGo rest false

/-- Python `s.title()`. -/
def pyTitle (s : String) : String := String.mk (titleGo s.data false)

/-- The loop guard of `wait_for_job`: Python `status in ["Pending", "Running"]`
(the code tests `status not in ["Pending", "Running"]` to leave the loop). -/
def isActive (status : String) : Bool := ["Pending", "Running"].contains status

/-- Observable outcome of one run of `wait_for_job`.

`returns ret finalStatus timedOut` is normal termination: `ret` is the Python
return value of the function (its body has no `return` statement, so a
non-raising run returns `None`, i.e. `none`), `finalStatus` is the status
printed by the final `print("Job status: ...")` line, and `timedOut` records
whether the `"Job timeout after ... seconds."` message was printed (the break
taken on `time.time() - start_time > timeout`).

`raises msg` is the `AssertionError` raised by `assert status == "Done"`. -/
inductive RunResult where
  | returns (ret : Option String) (finalStatus : String) (timedOut : Bool)
  | raises (msg : String)
deriving DecidableEq, Repr

/-- A run of `wait_for_job` together with its request/sleep accounting:
`loopPolls` counts the GET requests issued inside the `while` loop, which
equals the number of `time.sleep(5)` calls executed (each loop iteration
does exactly one sleep followed by one GET). -/
structure RunTrace where
  result : RunResult
  loopPolls : Nat
deriving DecidableEq, Repr

/-- The `while True` loop of `wait_for_job`.

`status` is the current title-cased status, `elapsed` the value of
`time.time() - start_time` (5 seconds per completed iteration), and `i` the
index of the next poll.  Each iteration: if `status` is not Pending/Running,
assert it is Done and break; otherwise sleep 5 seconds, re-poll, update
`status` (the code keeps the old value when equal, which is the same value),
and break on `time.time() - start_time > timeout`.  Note the updated status
is `pyTitle (polls i)` whether or not it changed. -/
def waitLoop (polls : Nat → String) (timeout : Nat) (status : String)
    (elapsed i : Nat) : RunTrace :=
  if isActive status then
    let statusNew := pyTitle (polls i)
    if h : timeout < elapsed + 5 then
      ⟨RunResult.returns none statusNew true, 1⟩
    else
      let rest := waitLoop polls timeout statusNew (elapsed + 5) (i + 1)
      ⟨rest.result, rest.loopPolls + 1⟩
  else if status = "Done" then
    ⟨RunResult.returns none "Done" false, 0⟩
  else
    ⟨RunResult.raises ("Job failed with status: " ++ status), 0⟩
termination_by timeout - elapsed
decreasing_by omega

/-- `wait_for_job(endpoint, headers, timeout)` from the notebooks: GET the
job once (poll 0), title-case its status, then run the loop; the next poll
inside the loop is poll 1 and the stopwatch starts at 0. -/
def wait_for_job (polls : Nat → String) (timeout : Nat) : RunTrace :=
  waitLoop polls timeout (pyTitle (polls 0)) 0 1

/-- Unfolding the loop when the current status is Done: the assert passes
and the loop breaks; the final print reports Done, the Python return value
is None, and no further sleep or GET happens. -/
lemma waitLoop_done (polls : Nat → String) (timeout : Nat) (elapsed i : Nat) :
    waitLoop polls timeout "Done" elapsed i =
      ⟨RunResult.returns none "Done" false, 0⟩ := by
  rw [waitLoop]
  simp [isActive]

/-- Unfolding the loop when the current status is terminal but not Done:
the assert fires. -/
lemma waitLoop_fail (polls : Nat → String) (timeout : Nat) (status : String)
    (elapsed i : Nat) (hact : isActive status = false) (hne : status ≠ "Done") :
    waitLoop polls timeout status elapsed i =
      ⟨RunResult.raises ("Job failed with status: " ++ status), 0⟩ := by
  rw [waitLoop]
  simp [hact, hne]

/-- Unfolding the loop when the current status is Pending/Running and the
next check of the stopwatch exceeds the timeout: the loop sleeps, re-polls,
and breaks on the timeout test, reporting the just-polled status. -/
lemma waitLoop_timeout (polls : Nat → String) (timeout : Nat) (status : String)
    (elapsed i : Nat) (hact : isActive status = true)
    (ht : timeout < elapsed + 5) :
    waitLoop polls timeout status elapsed i =
      ⟨RunResult.returns none (pyTitle (polls i)) true, 1⟩ := by
  rw [waitLoop]
  simp [hact, ht]

/-- Unfolding the loop when the current status is Pending/Running and the
stopwatch stays within the timeout: one sleep and one GET happen and the
loop continues from the freshly polled status. -/
lemma waitLoop_step (polls : Nat → String) (timeout : Nat) (status : String)
    (elapsed i : Nat) (hact : isActive status = true)
    (ht : elapsed + 5 ≤ timeout) :
    waitLoop polls timeout status elapsed i =
      ⟨(waitLoop polls timeout (pyTitle (polls i)) (elapsed + 5) (i + 1)).result,
       (waitLoop polls timeout (pyTitle (polls i)) (elapsed + 5) (i + 1)).loopPolls + 1⟩ := by
  conv_lhs => rw [waitLoop]
  have ht' : ¬ timeout < elapsed + 5 := by omega
  simp [hact, ht']

/-- Running the loop across m+1 consecutive Pending/Running observations:
if the current status and the next m polled statuses are all active and the
stopwatch stays within the timeout, the loop performs m+1 sleep/GET
iterations and continues from the (i+m)-th poll. -/
lemma waitLoop_advance (polls : Nat → String) (timeout : Nat) :
    ∀ (m : Nat) (status : String) (elapsed i : Nat),
      isActive status = true →
      (∀ j, j < m → isActive (pyTitle (polls (i + j))) = true) →
      elapsed + 5 * (m + 1) ≤ timeout →
      waitLoop polls timeout status elapsed i =
        ⟨(waitLoop polls timeout (pyTitle (polls (i + m)))
            (elapsed + 5 * (m + 1)) (i + m + 1)).result,
         (waitLoop polls timeout (pyTitle (polls (i + m)))
            (elapsed + 5 * (m + 1)) (i + m + 1)).loopPolls + (m + 1)⟩ := by
  intro m
  induction m with
  | zero =>
    intro status elapsed i hact _ ht
    have h := waitLoop_step polls timeout status elapsed i hact (by omega)
    simpa using h
  | succ m ih =>
    intro status elapsed i hact hpre ht
    rw [waitLoop_step polls timeout status elapsed i hact (by omega)]
    have h0 : isActive (pyTitle (polls (i + 0))) = true := hpre 0 (by omega)
    have h0' : isActive (pyTitle (polls i)) = true := by simpa using h0
    have hpre' : ∀ j, j < m → isActive (pyTitle (polls (i + 1 + j))) = true := by
      intro j hj
      have h := hpre (j + 1) (by omega)
      have e : i + (j + 1) = i + 1 + j := by omega
      rwa [e] at h
    rw [ih (pyTitle (polls i)) (elapsed + 5) (i + 1) h0' hpre' (by omega)]
    have e1 : i + 1 + m = i + (m + 1) := by omega
    have e2 : elapsed + 5 + 5 * (m + 1) = elapsed + 5 * (m + 1 + 1) := by ring
    rw [e1, e2]
    simp [Nat.add_assoc]

/-- If every polled status is Pending/Running, the run ends by the timeout
break: it performs timeout/5 + 1 iterations from the given stopwatch value
and reports the last polled status with the timeout flag set. -/
lemma waitLoop_allPR (polls : Nat → String) (timeout : Nat)
    (hall : ∀ j, isActive (pyTitle (polls j)) = true) :
    ∀ (d : Nat) (status : String) (elapsed i : Nat),
      timeout - elapsed ≤ d → isActive status = true →
      waitLoop polls timeout status elapsed i =
        ⟨RunResult.returns none (pyTitle (polls (i + (timeout - elapsed) / 5))) true,
         (timeout - elapsed) / 5 + 1⟩ := by
  intro d
  induction d with
  | zero =>
    intro status elapsed i hd hact
    have ht : timeout < elapsed + 5 := by omega
    rw [waitLoop_timeout polls timeout status elapsed i hact ht]
    have e : (timeout - elapsed) / 5 = 0 := by omega
    rw [e]
    simp
  | succ d ih =>
    intro status elapsed i hd hact
    by_cases ht : timeout < elapsed + 5
    · rw [waitLoop_timeout polls timeout status elapsed i hact ht]
      have e : (timeout - elapsed) / 5 = 0 := by omega
      rw [e]
      simp
    · rw [waitLoop_step polls timeout status elapsed i hact (by omega)]
      rw [ih (pyTitle (polls i)) (elapsed + 5) (i + 1) (by omega) (hall i)]
      have e1 : i + 1 + (timeout - (elapsed + 5)) / 5 = i + (timeout - elapsed) / 5 := by
        omega
      have e2 : (timeout - (elapsed + 5)) / 5 + 1 = (timeout - elapsed) / 5 := by
        omega
      rw [e1, e2]

/-- The loop body has no `return` statement: whenever a run terminates
normally, the Python value returned to the caller is None. -/
lemma waitLoop_ret_none (polls : Nat → String) (timeout : Nat) :
    ∀ (d : Nat) (status : String) (elapsed i : Nat), timeout - elapsed ≤ d →
      ∀ r f b, (waitLoop polls timeout status elapsed i).result =
        RunResult.returns r f b → r = none := by
  intro d
  induction d with
  | zero =>
    intro status elapsed i hd r f b h
    by_cases hact : isActive status
    · rw [waitLoop_timeout polls timeout status elapsed i hact (by omega)] at h
      simp only [RunResult.returns.injEq] at h
      exact h.1.symm
    · by_cases hdn : status = "Done"
      · subst hdn
        rw [waitLoop_done] at h
        simp only [RunResult.returns.injEq] at h
        exact h.1.symm
      · rw [waitLoop_fail polls timeout status elapsed i (by simpa using hact) hdn] at h
        exact absurd h (by simp)
  | succ d ih =>
    intro status elapsed i hd r f b h
    by_cases hact : isActive status
    · by_cases ht : timeout < elapsed + 5
      · rw [waitLoop_timeout polls timeout status elapsed i hact ht] at h
        simp only [RunResult.returns.injEq] at h
        exact h.1.symm
      · rw [waitLoop_step polls timeout status elapsed i hact (by omega)] at h
        exact ih (pyTitle (polls i)) (elapsed + 5) (i + 1) (by omega) r f b h
    · by_cases hdn : status = "Done"
      · subst hdn
        rw [waitLoop_done] at h
        simp only [RunResult.returns.injEq] at h
        exact h.1.symm
      · rw [waitLoop_fail polls timeout status elapsed i (by simpa using hact) hdn] at h
        exact absurd h (by simp)

/-- The loop inspects the polled wire statuses only through their
title-cased form: two poll sequences with equal title-casings drive the
loop identically. -/
lemma waitLoop_congr (polls1 polls2 : Nat → String) (timeout : Nat)
    (hp : ∀ j, pyTitle (polls1 j) = pyTitle (polls2 j)) :
    ∀ (d : Nat) (status : String) (elapsed i : Nat), timeout - elapsed ≤ d →
      waitLoop polls1 timeout status elapsed i =
        waitLoop polls2 timeout status elapsed i := by
  intro d
  induction d with
  | zero =>
    intro status elapsed i hd
    by_cases hact : isActive status
    · rw [waitLoop_timeout polls1 timeout status elapsed i hact (by omega),
        waitLoop_timeout polls2 timeout status elapsed i hact (by omega), hp i]
    · by_cases hdn : status = "Done"
      · subst hdn
        rw [waitLoop_done, waitLoop_done]
      · rw [waitLoop_fail polls1 timeout status elapsed i (by simpa using hact) hdn,
          waitLoop_fail polls2 timeout status elapsed i (by simpa using hact) hdn]
  | succ d ih =>
    intro status elapsed i hd
    by_cases hact : isActive status
    · by_cases ht : timeout < elapsed + 5
      · rw [waitLoop_timeout polls1 timeout status elapsed i hact ht,
          waitLoop_timeout polls2 timeout status elapsed i hact ht, hp i]
      · rw [waitLoop_step polls1 timeout status elapsed i hact (by omega),
          waitLoop_step polls2 timeout status elapsed i hact (by omega),
          ih (pyTitle (polls1 i)) (elapsed + 5) (i + 1) (by omega), hp i]
    · by_cases hdn : status = "Done"
      · subst hdn
        rw [waitLoop_done, waitLoop_done]
      · rw [waitLoop_fail polls1 timeout status elapsed i (by simpa using hact) hdn,
          waitLoop_fail polls2 timeout status elapsed i (by simpa using hact) hdn]

/-- A run whose first i observed (title-cased) statuses are Pending/Running
and whose i-th observation is terminal, with the timeout not yet exceeded
at the i-th poll, exits via the top-of-loop test at that observation:
it succeeds when that status is Done and raises the assertion otherwise,
after exactly i loop iterations. -/
lemma wait_reaches (polls : Nat → String) (timeout : Nat) (i : Nat) (s : String)
    (hpre : ∀ j, j < i → isActive (pyTitle (polls j)) = true)
    (hs : pyTitle (polls i) = s)
    (hterm : isActive s = false)
    (hti : 5 * i ≤ timeout) :
    wait_for_job polls timeout =
      ⟨if s = "Done" then RunResult.returns none "Done" false
        else RunResult.raises ("Job failed with status: " ++ s), i⟩ := by
  cases i with
  | zero =>
    unfold wait_for_job
    rw [hs]
    by_cases hd : s = "Done"
    · subst hd
      rw [waitLoop_done]
      simp
    · rw [waitLoop_fail polls timeout s 0 1 hterm hd]
      simp [hd]
  | succ m =>
    unfold wait_for_job
    have h0 : isActive (pyTitle (polls 0)) = true := hpre 0 (by omega)
    have hpre' : ∀ j, j < m → isActive (pyTitle (polls (1 + j))) = true := by
      intro j hj
      exact hpre (1 + j) (by omega)
    rw [waitLoop_advance polls timeout m (pyTitle (polls 0)) 0 1 h0 hpre' (by omega)]
    have e : 1 + m = m + 1 := by omega
    rw [e, hs]
    by_cases hd : s = "Done"
    · subst hd
      rw [waitLoop_done]
      simp
    · rw [waitLoop_fail polls timeout s (0 + 5 * (m + 1)) (m + 1 + 1) hterm hd]
      simp [hd]

/-- When the first observed status is Pending/Running the loop always runs
at least one iteration (one 5-second sleep and one further GET), whatever
the timeout is. -/
lemma wait_first_active (polls : Nat → String) (timeout : Nat)
    (h : isActive (pyTitle (polls 0)) = true) :
    1 ≤ (wait_for_job polls timeout).loopPolls := by
  unfold wait_for_job
  by_cases ht : timeout < 0 + 5
  · rw [waitLoop_timeout polls timeout (pyTitle (polls 0)) 0 1 h ht]
  · rw [waitLoop_step polls timeout (pyTitle (polls 0)) 0 1 h (by omega)]
    simp

/-- The download gate of the notebooks: the cell GETs the job and tests
Python `response.json()["status"] == "Done"` on the raw wire status (note:
no `.title()` here, unlike the polling loop). -/
def download_gate (wireStatus : String) : Bool := wireStatus == "Done"

/-- The cancel gate of the cleanup cell: Python
`response.json()["status"] != "Done"` on the raw wire status (again without
`.title()`). -/
def cancel_gate (wireStatus : String) : Bool := wireStatus != "Done"

/-- The HTTP requests the notebook cells can issue against the service
(beyond the polling GETs, which `RunTrace.loopPolls` accounts for). -/
inductive Req where
  | getStatus
  | getDownload
  | postCancel
  | deleteExperiment
  | deleteTrainDataset
  | deleteValDataset
deriving DecidableEq, Repr

/-- The job-download cell: GET the job status, and only when the raw status
equals "Done" issue the `:download` GET (asserting HTTP 200) followed by the
second `:download` GET with the bundle export type.  `wireStatus` is the
status field of the preceding status check and `downloadCode` the HTTP code
of the first download (a failed assert aborts the cell before the second
download).  The returned list is the sequence of requests the cell issues. -/
def download_cell (wireStatus : String) (downloadCode : Nat) : List Req :=
  Req.getStatus ::
    (if download_gate wireStatus then
      Req.getDownload ::
        (if downloadCode = 200 then [Req.getDownload] else [])
    else [])

/-- The tail of the cleanup sequence: DELETE the experiment (asserting
HTTP 200), then DELETE the train dataset (asserting 200), then DELETE the
validation dataset; a failed assert aborts before the next request. -/
def deletePhase (delExpCode delTrainCode : Nat) : List Req :=
  Req.deleteExperiment ::
    (if delExpCode = 200 then
      Req.deleteTrainDataset ::
        (if delTrainCode = 200 then [Req.deleteValDataset] else [])
    else [])

/-- The cleanup cells: GET the job status; when the raw status is not
"Done", POST `:cancel` and assert HTTP 200 (aborting everything after it on
failure); then DELETE the experiment and, only after that returned 200,
DELETE the two datasets.  Arguments are the observed job status and the
HTTP codes of the cancel, experiment-delete and train-dataset-delete
responses; the value is the sequence of requests issued. -/
def cleanupTrace (jobStatus : String)
    (cancelCode delExpCode delTrainCode : Nat) : List Req :=
  Req.getStatus ::
    (if cancel_gate jobStatus then
      Req.postCancel ::
        (if cancelCode = 200 then deletePhase delExpCode delTrainCode else [])
    else deletePhase delExpCode delTrainCode)

/-- Outcome of the login cell: either both credentials, or the
AssertionError message that aborted the session. -/
inductive LoginResult where
  | ok (user_id token : String)
  | authError (msg : String)
deriving DecidableEq, Repr

/-- The login cell: POST the NGC key, assert the HTTP status code is 201,
assert "user_id" is among the JSON keys and read it, assert "token" is
among the JSON keys and read it.  The JSON body is modelled as an
association list. -/
def login (code : Nat) (body : List (String × String)) : LoginResult :=
  if code = 201 then
    match body.lookup "user_id" with
    | some uid =>
      match body.lookup "token" with
      | some tok => LoginResult.ok uid tok
      | none => LoginResult.authError "token is not in response."
    | none => LoginResult.authError "user_id is not in response."
  else
    LoginResult.authError ("Login failed, got status code: " ++ toString code ++ ".")

/-- The headers dictionary built after login and sent with every subsequent
request: `Authorization: Bearer (token)`.  When login aborts with an
assertion no headers are built and no further API call is made, modelled
as `none`. -/
def headersAfterLogin (code : Nat) (body : List (String × String)) :
    Option (String × String) :=
  match login code body with
  | LoginResult.ok _ tok => some ("Authorization", "Bearer " ++ tok)
  | LoginResult.authError _ => none

/-- An element of the experiments listing, with the fields the
base-experiment selection cell reads.  Versions are JSON strings and Python
compares them lexicographically by code point, as Lean's `String` order
does. -/
structure Experiment where
  id : String
  name : String
  network_arch : String
  version : String
deriving DecidableEq, Repr

/-- The filter of the selection cell: Python
`p["network_arch"] == "monai_automl" and p["name"] == "MONAI Auto3dSeg"`. -/
def matchesBase (p : Experiment) : Bool :=
  p.network_arch == "monai_automl" && p.name == "MONAI Auto3dSeg"

/-- Python `automl_base_exps = [p for p in res if ...]`. -/
def automl_base_exps (res : List Experiment) : List Experiment :=
  res.filter matchesBase

/-- Python's `<` on strings: lexicographic comparison of the code points.
A strict prefix is smaller; otherwise the first differing code point
decides. -/
def charListLt : List Char → List Char → Bool
  | [], [] => false
  | [], _ :: _ => true
  | _ :: _, [] => false
  | a :: as, b :: bs =>
    if a.toNat < b.toNat then true
    else if b.toNat < a.toNat then false
    else charListLt as bs

/-- Python's `<=` on strings, as used by `sorted` on the version keys. -/
def pyStrLe (s1 s2 : String) : Bool := !(charListLt s2.data s1.data)

lemma charListLt_irrefl : ∀ x, charListLt x x = false := by
  intro x
  induction x with
  | nil => rfl
  | cons a as ih =>
    simp only [charListLt]
    have h : ¬ a.toNat < a.toNat := by omega
    simp [h, ih]

lemma charListLt_asymm : ∀ x y, charListLt x y = true → charListLt y x = false := by
  intro x
  induction x with
  | nil =>
    intro y h
    cases y with
    | nil => exact absurd h (by simp [charListLt])
    | cons b bs => simp [charListLt]
  | cons a as ih =>
    intro y h
    cases y with
    | nil => exact absurd h (by simp [charListLt])
    | cons b bs =>
      simp only [charListLt] at h ⊢
      by_cases hab : a.toNat < b.toNat
      · have hba : ¬ b.toNat < a.toNat := by omega
        simp [hab, hba]
      · by_cases hba : b.toNat < a.toNat
        · simp [hab, hba] at h
        · simp only [hab, hba, if_false] at h ⊢
          exact ih bs h

lemma charListLt_linear :
    ∀ x y z, charListLt x y = true →
      charListLt x z = true ∨ charListLt z y = true := by
  intro x
  induction x with
  | nil =>
    intro y z h
    cases y with
    | nil => exact absurd h (by simp [charListLt])
    | cons b bs =>
      cases z with
      | nil => exact Or.inr (by simp [charListLt])
      | cons c cs => exact Or.inl (by simp [charListLt])
  | cons a as ih =>
    intro y z h
    cases y with
    | nil => exact absurd h (by simp [charListLt])
    | cons b bs =>
      cases z with
      | nil => exact Or.inr (by simp [charListLt])
      | cons c cs =>
        simp only [charListLt] at h ⊢
        by_cases hac : a.toNat < c.toNat
        · exact Or.inl (by simp [hac])
        · by_cases hab : a.toNat < b.toNat
          · have hcb : c.toNat < b.toNat := by omega
            exact Or.inr (by simp [hcb])
          · by_cases hba : b.toNat < a.toNat
            · simp [hab, hba] at h
            · simp only [hab, hba, if_false] at h
              by_cases hca : c.toNat < a.toNat
              · have hcb : c.toNat < b.toNat := by omega
                exact Or.inr (by simp [hcb])
              · have e1 : ¬ a.toNat < c.toNat := hac
                have e2 : ¬ c.toNat < b.toNat := by omega
                have e3 : ¬ b.toNat < c.toNat := by omega
                rcases ih bs cs h with hl | hr
                · exact Or.inl (by simp [e1, hca, hl])
                · exact Or.inr (by simp [e2, e3, hr])

/-- The key order used by Python `sorted(..., key=lambda x: x["version"])`. -/
def vle (a b : Experiment) : Prop := pyStrLe a.version b.version = true

instance : DecidableRel vle := fun a b =>
  inferInstanceAs (Decidable (pyStrLe a.version b.version = true))

lemma vle_refl (a : Experiment) : vle a a := by
  unfold vle pyStrLe
  simp [charListLt_irrefl]

instance : IsTotal Experiment vle := by
  constructor
  intro a b
  unfold vle pyStrLe
  by_cases h : charListLt b.version.data a.version.data = true
  · have h2 := charListLt_asymm _ _ h
    exact Or.inr (by simp [h2])
  · exact Or.inl (by simp [Bool.not_eq_true] at h; simp [h])

instance : IsTrans Experiment vle := by
  constructor
  intro a b c hab hbc
  unfold vle pyStrLe at hab hbc ⊢
  simp only [Bool.not_eq_true', Bool.not_eq_true] at hab hbc ⊢
  by_cases h : charListLt c.version.data a.version.data = true
  · rcases charListLt_linear _ _ _ h with hl | hr
    · rw [hbc] at hl
      exact absurd hl (by simp)
    · rw [hab] at hr
      exact absurd hr (by simp)
  · simpa [Bool.not_eq_true] using h

/-- Python `sorted(automl_base_exps, key=lambda x: x["version"])`.  Python's
`sorted` is a stable sort by the key order; a stable insertion sort returns
the same list, so `List.insertionSort` is a faithful model of its output. -/
def pySortedByVersion (l : List Experiment) : List Experiment :=
  List.insertionSort vle l

/-- The selection cell: assert the filtered list is non-empty (`none` models
the AssertionError) and take `sorted(...)[-1]`, the last element of the
sorted list. -/
def select_base_experiment (res : List Experiment) : Option Experiment :=
  (pySortedByVersion (automl_base_exps res)).getLast?

/-- Python `base_experiment_id = base_experiment["id"]`. -/
def base_experiment_id (res : List Experiment) : Option String :=
  Option.map Experiment.id (select_base_experiment res)

/-- In a sorted list every element is below the last one. -/
lemma mem_vle_getLast (l : List Experiment) (hs : List.Sorted vle l)
    (x e : Experiment) (hx : x ∈ l) (he : l.getLast? = some e) : vle x e := by
  induction l with
  | nil => cases hx
  | cons a t ih =>
    cases t with
    | nil =>
      have hxa : x = a := by simpa using hx
      have hea : a = e := by simpa using he
      subst hxa
      subst hea
      exact vle_refl _
    | cons b t' =>
      rw [List.getLast?_cons_cons] at he
      have hemem : e ∈ b :: t' := by
        have h1 : e ∈ (b :: t').getLast? := Option.mem_def.mpr he
        obtain ⟨hne, hel⟩ := List.mem_getLast?_eq_getLast h1
        rw [hel]
        exact List.getLast_mem hne
      rcases List.mem_cons.mp hx with hxa | hxt
      · subst hxa
        exact List.rel_of_sorted_cons hs e hemem
      · exact ih hs.of_cons hxt he

/-- The scripted status sequence Pending, Pending, Running, Done, observed
one polling interval apart (poll 0 is the initial GET). -/
def seqC2 : Nat → String := fun i =>
  if i = 0 then "Pending"
  else if i = 1 then "Pending"
  else if i = 2 then "Running"
  else "Done"

/-- C1: whenever the loop observes a title-cased status outside
Pending/Running at the top of an iteration (the first i observations being
Pending/Running and the timeout not yet exceeded at the i-th poll, e.g. a
sequence ending in Error), wait_for_job exits raising
"Job failed with status: ..." unless that status is exactly Done; this
failure outcome is a raise, distinct from every normal return (both the
Done success and the timeout outcome are normal returns). -/
theorem claim1_poller_failure (polls : Nat → String) (timeout i : Nat) (s : String)
    (hpre : ∀ j, j < i → isActive (pyTitle (polls j)) = true)
    (hs : pyTitle (polls i) = s)
    (hterm : isActive s = false)
    (hne : s ≠ "Done")
    (hti : 5 * i ≤ timeout) :
    (wait_for_job polls timeout).result =
      RunResult.raises ("Job failed with status: " ++ s)
    ∧ ∀ r f b, (wait_for_job polls timeout).result ≠ RunResult.returns r f b := by
  have h := wait_reaches polls timeout i s hpre hs hterm hti
  rw [h]
  simp [hne]

/-- Witness for C1 on the sequence Pending, Running, Error with a large
timeout. -/
theorem claim1_witness :
    (wait_for_job
        (fun n => if n = 0 then "Pending" else if n = 1 then "Running" else "Error")
        1800).result =
      RunResult.raises ("Job failed with status: " ++ "Error") :=
  (claim1_poller_failure
    (fun n => if n = 0 then "Pending" else if n = 1 then "Running" else "Error")
    1800 2 "Error" (by decide) (by decide) (by decide) (by decide) (by decide)).1

/-- C2: on the scripted sequence Pending, Pending, Running, Done observed
one polling interval apart, wait_for_job with timeout of at least 3 polling
intervals (15 seconds) terminates reporting Done and raises no job-failure
error. -/
theorem claim2_scripted_done (timeout : Nat) (h : 15 ≤ timeout) :
    (wait_for_job seqC2 timeout).result = RunResult.returns none "Done" false
    ∧ ∀ m, (wait_for_job seqC2 timeout).result ≠ RunResult.raises m := by
  have h3 := wait_reaches seqC2 timeout 3 "Done" (by decide) (by decide)
    (by decide) (by omega)
  rw [h3]
  simp

/-- Witness for C2 at timeout exactly 15 seconds. -/
theorem claim2_witness :
    (wait_for_job seqC2 15).result = RunResult.returns none "Done" false :=
  (claim2_scripted_done 15 (by decide)).1

/-- C3: when every polled status stays Pending/Running, the loop ends via
the timeout break once the stopwatch exceeds the caller-supplied timeout:
the run reports the last-known (non-terminal) status with the timeout
message, raises no job-failure error, is distinct from the Done success
outcome, and performs timeout/5 + 1 iterations, whose total sleep time
first exceeds the timeout. -/
theorem claim3_timeout (polls : Nat → String) (timeout : Nat)
    (hall : ∀ j, isActive (pyTitle (polls j)) = true) :
    (wait_for_job polls timeout).result =
      RunResult.returns none (pyTitle (polls (timeout / 5 + 1))) true
    ∧ isActive (pyTitle (polls (timeout / 5 + 1))) = true
    ∧ (∀ m, (wait_for_job polls timeout).result ≠ RunResult.raises m)
    ∧ (wait_for_job polls timeout).result ≠ RunResult.returns none "Done" false
    ∧ (wait_for_job polls timeout).loopPolls = timeout / 5 + 1
    ∧ timeout < 5 * (wait_for_job polls timeout).loopPolls := by
  have h := waitLoop_allPR polls timeout hall (timeout - 0) (pyTitle (polls 0)) 0 1
    (by omega) (hall 0)
  have e1 : 1 + (timeout - 0) / 5 = timeout / 5 + 1 := by omega
  have e2 : (timeout - 0) / 5 + 1 = timeout / 5 + 1 := by omega
  rw [e1, e2] at h
  unfold wait_for_job
  rw [h]
  refine ⟨rfl, hall _, by simp, by simp, rfl, ?_⟩
  show timeout < 5 * (timeout / 5 + 1)
  omega

/-- Witness for C3 on the constant Running sequence with a 7-second
timeout. -/
theorem claim3_witness :
    (wait_for_job (fun _ => "Running") 7).result =
      RunResult.returns none "Running" true := by
  have h := (claim3_timeout (fun _ => "Running") 7
    (fun _ => (by decide : isActive (pyTitle "Running") = true))).1
  rw [h]
  decide

/-- C4 counterexample: on a run that reaches the terminal state Done the
Python return value of wait_for_job is None, not the terminal status
(the function body has no return statement; the status is only printed). -/
theorem claim4_counterexample :
    (wait_for_job (fun _ => "Done") 1800).result =
      RunResult.returns none "Done" false
    ∧ RunResult.returns (none : Option String) "Done" false ≠
        RunResult.returns (some "Done") "Done" false := by
  have h := wait_reaches (fun _ => "Done") 1800 0 "Done"
    (fun j hj => absurd hj (Nat.not_lt_zero j)) (by decide) (by decide) (by omega)
  rw [h]
  exact ⟨by simp, by simp⟩

/-- C4 (amended): wait_for_job communicates the terminal status to its
caller by its final printed line rather than by its return value: every
normally terminating run returns Python None, and every run that reaches
the terminal status Done within the timeout reports final status Done
(a non-Done terminal status is signalled by the raised assertion
instead). -/
theorem claim4_return_value (polls : Nat → String) (timeout : Nat) :
    (∀ r f b, (wait_for_job polls timeout).result = RunResult.returns r f b →
      r = none)
    ∧ (∀ i, (∀ j, j < i → isActive (pyTitle (polls j)) = true) →
        pyTitle (polls i) = "Done" → 5 * i ≤ timeout →
        (wait_for_job polls timeout).result =
          RunResult.returns none "Done" false) := by
  constructor
  · intro r f b h
    exact waitLoop_ret_none polls timeout (timeout - 0) (pyTitle (polls 0)) 0 1
      (by omega) r f b h
  · intro i hpre hs hti
    have h := wait_reaches polls timeout i "Done" hpre hs (by decide) hti
    rw [h]
    simp

/-- Witness for C4 (amended) on the constant Done sequence. -/
theorem claim4_witness :
    (wait_for_job (fun _ => "Done") 0).result =
      RunResult.returns none "Done" false
    ∧ (none : Option String) = none := by
  have h2 := (claim4_return_value (fun _ => "Done") 0).2 0
    (fun j hj => absurd hj (Nat.not_lt_zero j)) (by decide) (by omega)
  exact ⟨h2, (claim4_return_value (fun _ => "Done") 0).1 none "Done" false h2⟩

/-- C5 counterexample: the wire statuses "done" and "Done" differ only in
letter case (they have the same title-casing), yet the download gate and
the cancel gate treat them differently, because those two gates compare
the raw wire status rather than the title-cased form. -/
theorem claim5_counterexample :
    pyTitle "done" = pyTitle "Done"
    ∧ download_gate "done" = false
    ∧ download_gate "Done" = true
    ∧ cancel_gate "done" = true
    ∧ cancel_gate "Done" = false := by decide

/-- C5 (amended): only the polling loop normalizes the wire status with
.title() before comparing against Pending/Running/Done — two poll
sequences whose statuses agree up to title-casing drive wait_for_job to
identical outcomes, and lowercase or uppercase wire spellings title-case
to the client's canonical forms — whereas the download gate and the
cancel-before-delete gate compare the raw wire status to "Done"
case-sensitively. -/
theorem claim5_case_sensitivity :
    (∀ polls1 polls2 : Nat → String, ∀ timeout : Nat,
        (∀ j, pyTitle (polls1 j) = pyTitle (polls2 j)) →
        wait_for_job polls1 timeout = wait_for_job polls2 timeout)
    ∧ pyTitle "done" = "Done" ∧ pyTitle "DONE" = "Done"
    ∧ pyTitle "pending" = "Pending" ∧ pyTitle "running" = "Running"
    ∧ pyTitle "error" = "Error"
    ∧ download_gate "done" = false ∧ download_gate "Done" = true
    ∧ cancel_gate "done" = true ∧ cancel_gate "Done" = false := by
  refine ⟨?_, by decide, by decide, by decide, by decide, by decide,
    by decide, by decide, by decide, by decide⟩
  intro polls1 polls2 timeout hp
  unfold wait_for_job
  rw [hp 0]
  exact waitLoop_congr polls1 polls2 timeout hp (timeout - 0)
    (pyTitle (polls2 0)) 0 1 (by omega)

/-- Witness for C5 (amended): an all-lowercase wire spelling of Done and an
all-uppercase one produce identical runs. -/
theorem claim5_witness :
    wait_for_job (fun _ => "done") 3 = wait_for_job (fun _ => "DONE") 3 :=
  claim5_case_sensitivity.1 (fun _ => "done") (fun _ => "DONE") 3
    (fun _ => (by decide : pyTitle "done" = pyTitle "DONE"))

/-- C6: the download cell issues the :download GET exactly when the status
check performed immediately before it (the first request of the cell)
reports the job status Done; on any other status the download step is
skipped. -/
theorem claim6_download_gate (wireStatus : String) (downloadCode : Nat) :
    (Req.getDownload ∈ download_cell wireStatus downloadCode ↔
      wireStatus = "Done")
    ∧ (download_cell wireStatus downloadCode).head? = some Req.getStatus := by
  refine ⟨⟨?_, ?_⟩, rfl⟩
  · intro hmem
    by_cases h : wireStatus = "Done"
    · exact h
    · simp [download_cell, download_gate, h] at hmem
  · intro h
    simp [download_cell, download_gate, h]

/-- Witness for C6: with status Done the download request is issued. -/
theorem claim6_witness :
    Req.getDownload ∈ download_cell "Done" 200 :=
  (claim6_download_gate "Done" 200).1.mpr rfl

/-- C7: in the cleanup trace, the experiment DELETE is issued only after
the job was observed Done or the cancel POST was issued and returned 200,
and each dataset DELETE is issued only after the experiment DELETE
returned 200 — a dataset delete never happens while the experiment
deletion has not succeeded. -/
theorem claim7_cleanup_order (jobStatus : String)
    (cancelCode delExpCode delTrainCode : Nat) :
    (Req.deleteExperiment ∈ cleanupTrace jobStatus cancelCode delExpCode delTrainCode →
      jobStatus = "Done" ∨
        (Req.postCancel ∈ cleanupTrace jobStatus cancelCode delExpCode delTrainCode
          ∧ cancelCode = 200))
    ∧ (Req.deleteTrainDataset ∈ cleanupTrace jobStatus cancelCode delExpCode delTrainCode →
        delExpCode = 200 ∧
          Req.deleteExperiment ∈ cleanupTrace jobStatus cancelCode delExpCode delTrainCode)
    ∧ (Req.deleteValDataset ∈ cleanupTrace jobStatus cancelCode delExpCode delTrainCode →
        delExpCode = 200 ∧
          Req.deleteExperiment ∈ cleanupTrace jobStatus cancelCode delExpCode delTrainCode) := by
  unfold cleanupTrace deletePhase cancel_gate
  split_ifs with h1 h2 h3 h4 <;> simp_all

/-- Witness for C7 on a Running job whose cancel and deletes all return
200. -/
theorem claim7_witness :
    ("Running" = "Done" ∨
      (Req.postCancel ∈ cleanupTrace "Running" 200 200 200 ∧ (200 : Nat) = 200))
    ∧ ((200 : Nat) = 200 ∧
        Req.deleteExperiment ∈ cleanupTrace "Running" 200 200 200) := by
  have h := claim7_cleanup_order "Running" 200 200 200
  exact ⟨h.1 (by decide), h.2.2 (by decide)⟩

/-- C8: login succeeds exactly when the HTTP status code is 201 and the
JSON body has both a user_id and a token; in that case it yields exactly
those values and the session's Authorization header is Bearer token; on
any other status code or a missing key it aborts with an authentication
assertion and no headers are built for further API calls. -/
theorem claim8_login (code : Nat) (body : List (String × String)) :
    ((∃ u t, login code body = LoginResult.ok u t) ↔
      code = 201 ∧ (body.lookup "user_id").isSome ∧ (body.lookup "token").isSome)
    ∧ (∀ u t, login code body = LoginResult.ok u t →
        body.lookup "user_id" = some u ∧ body.lookup "token" = some t ∧
          headersAfterLogin code body = some ("Authorization", "Bearer " ++ t))
    ∧ (∀ m, login code body = LoginResult.authError m →
        headersAfterLogin code body = none) := by
  by_cases hc : code = 201 <;>
    rcases hu : body.lookup "user_id" with _ | u <;>
      rcases ht : body.lookup "token" with _ | t <;>
        simp [login, headersAfterLogin, hc, hu, ht]

/-- Witness for C8 on a 201 response carrying both keys. -/
theorem claim8_witness :
    login 201 [("user_id", "u1"), ("token", "t1")] = LoginResult.ok "u1" "t1"
    ∧ headersAfterLogin 201 [("user_id", "u1"), ("token", "t1")] =
        some ("Authorization", "Bearer " ++ "t1") := by
  have hok : login 201 [("user_id", "u1"), ("token", "t1")] =
      LoginResult.ok "u1" "t1" := by decide
  exact ⟨hok,
    ((claim8_login 201 [("user_id", "u1"), ("token", "t1")]).2.1 "u1" "t1" hok).2.2⟩

/-- C9: the base-experiment selection fails with an assertion when no
listed experiment matches network_arch monai_automl and name
MONAI Auto3dSeg; otherwise it selects a matching element whose version is
maximal among all matching elements and exposes its id as
base_experiment_id. -/
theorem claim9_base_selection (res : List Experiment) :
    (automl_base_exps res = [] → select_base_experiment res = none)
    ∧ (∀ e, select_base_experiment res = some e →
        matchesBase e = true ∧ e ∈ automl_base_exps res ∧
          (∀ q, q ∈ automl_base_exps res → pyStrLe q.version e.version = true) ∧
          base_experiment_id res = some e.id) := by
  constructor
  · intro h
    unfold select_base_experiment pySortedByVersion
    rw [h]
    rfl
  · intro e he
    have hmem : e ∈ pySortedByVersion (automl_base_exps res) := by
      obtain ⟨hne, hel⟩ := List.mem_getLast?_eq_getLast (Option.mem_def.mpr he)
      rw [hel]
      exact List.getLast_mem hne
    have hmem' : e ∈ automl_base_exps res := by
      simpa [pySortedByVersion] using hmem
    refine ⟨?_, hmem', ?_, ?_⟩
    · have h2 : e ∈ res.filter matchesBase := hmem'
      exact List.of_mem_filter h2
    · intro q hq
      have hsort : List.Sorted vle (pySortedByVersion (automl_base_exps res)) :=
        List.sorted_insertionSort vle _
      have hqmem : q ∈ pySortedByVersion (automl_base_exps res) := by
        simpa [pySortedByVersion] using hq
      exact mem_vle_getLast _ hsort q e hqmem he
    · unfold base_experiment_id
      rw [he]
      rfl

/-- Concrete listing for the C9 witness: two matching base experiments and
one non-matching experiment. -/
def resW : List Experiment :=
  [⟨"id1", "MONAI Auto3dSeg", "monai_automl", "1.0.0"⟩,
   ⟨"id2", "MONAI Auto3dSeg", "monai_automl", "1.1.0"⟩,
   ⟨"id3", "other", "monai_vista3d", "9.9.9"⟩]

/-- Witness for C9: id2 (version 1.1.0, the larger one) is selected. -/
theorem claim9_witness :
    matchesBase ⟨"id2", "MONAI Auto3dSeg", "monai_automl", "1.1.0"⟩ = true
    ∧ base_experiment_id resW = some "id2" := by
  have h := (claim9_base_selection resW).2
    ⟨"id2", "MONAI Auto3dSeg", "monai_automl", "1.1.0"⟩ (by decide)
  exact ⟨h.1, h.2.2.2⟩

/-- C10: when the very first status GET reports a title-cased status
outside Pending/Running, wait_for_job terminates immediately — no sleep
and no second GET, whatever the timeout (even 0) — succeeding exactly on
Done and raising the failure assertion otherwise; and when the first
status is Pending or Running, at least one 5-second sleep and one further
GET always occur, because the timeout is only checked after the sleep and
re-poll of each iteration. -/
theorem claim10_first_poll (polls : Nat → String) (timeout : Nat) :
    (isActive (pyTitle (polls 0)) = false →
      (wait_for_job polls timeout).loopPolls = 0
      ∧ (pyTitle (polls 0) = "Done" →
          (wait_for_job polls timeout).result = RunResult.returns none "Done" false)
      ∧ (pyTitle (polls 0) ≠ "Done" →
          (wait_for_job polls timeout).result =
            RunResult.raises ("Job failed with status: " ++ pyTitle (polls 0))))
    ∧ (isActive (pyTitle (polls 0)) = true →
        1 ≤ (wait_for_job polls timeout).loopPolls) := by
  constructor
  · intro hterm
    have h := wait_reaches polls timeout 0 (pyTitle (polls 0))
      (fun j hj => absurd hj (Nat.not_lt_zero j)) rfl hterm (by omega)
    rw [h]
    refine ⟨rfl, ?_, ?_⟩
    · intro hd
      simp [hd]
    · intro hd
      simp [hd]
  · exact wait_first_active polls timeout

/-- Witness for C10: an immediate Error with timeout 0 stops at once, and
an initial Pending with timeout 0 still does one sleep and re-poll. -/
theorem claim10_witness :
    (wait_for_job (fun _ => "Error") 0).loopPolls = 0
    ∧ 1 ≤ (wait_for_job (fun _ => "Pending") 0).loopPolls := by
  have h1 := (claim10_first_poll (fun _ => "Error") 0).1 (by decide)
  have h2 := (claim10_first_poll (fun _ => "Pending") 0).2 (by decide)
  exact ⟨h1.1, h2⟩

end MonaiCloud
